import Mathlib

/-!
Shallow embedding of the HL7SyntGen message assembly engine
(`src/function_app.py`) and verification of its specification claims.

Modelling conventions:

* Randomness (the Faker calls in the source) is modelled as an explicit
  value source: every `fake.random_int(min=a, max=b)` call becomes
  `randInt a b n = a + n % (b - a + 1)` for a dedicated draw `n : Nat`,
  and every `fake.random_element(elements=l)` becomes
  `randElem l dflt n = l.getD (n % l.length) dflt`.  Each generator takes
  a record holding one draw per Faker call, in source order.  Strings
  produced by external Faker text primitives (`fake.city()`,
  `fake.sentence()`) are supplied by the value source as `String` fields.
* `xml.etree.ElementTree` elements become the inductive `Elem`
  (tag, optional text, ordered children); `ET.SubElement` order is the
  children list order.
* `datetime.now()` becomes an explicit `DateTime` argument; `strftime`
  zero-padded formats become `format14`/`format12`/`format8`.
* In this source `AZURE_OPENAI_AVAILABLE = False` (line 15), so
  `azure_openai_client` is always `None` (lines 222-240) and every
  `if azure_openai_client:` test takes the fallback branch; the embedding
  inlines those fallback branches (the AI branches are dead code here).
* Python floats produced by `fake.pyfloat(right_digits=p, ...)` are
  modelled as integers scaled by `10^p` (the set of representable
  outcomes), printed by `decStr p` exactly as Python prints such floats
  (integer part, a dot, fractional digits with trailing zeros trimmed but
  at least one digit kept).  The threshold comparisons against float
  literals in the source are carried out on the scaled integers; for the
  thresholds that occur (e.g. `prevalence * 100`) the IEEE-double products
  round to exact integers, so the integer comparison agrees with the
  Python float comparison.
-/

/-! ## Digits, dates and timestamp formatting -/

/-- One decimal digit character; models a digit position of a zero-padded
`strftime` field. -/
def digitChar (n : Nat) : Char := Char.ofNat (48 + n % 10)

/-- Two zero-padded decimal digits (`%m`, `%d`, `%H`, `%M`, `%S`). -/
def pad2L (n : Nat) : List Char := [digitChar (n / 10), digitChar n]

/-- Four zero-padded decimal digits (`%Y`, and 4-digit sequence numbers). -/
def pad4L (n : Nat) : List Char :=
  [digitChar (n / 1000), digitChar (n / 100), digitChar (n / 10), digitChar n]

/-- A calendar date (used for dates of birth and referral dates). -/
structure Date where
  year : Nat
  month : Nat
  day : Nat
deriving DecidableEq

/-- A wall-clock instant, the model of `datetime.now()`. -/
structure DateTime where
  year : Nat
  month : Nat
  day : Nat
  hour : Nat
  minute : Nat
  second : Nat
deriving DecidableEq

/-- The date part of a `DateTime`. -/
def DateTime.date (t : DateTime) : Date := ⟨t.year, t.month, t.day⟩

/-- `strftime("%Y%m%d")` on a date. -/
def format8 (d : Date) : String :=
  String.mk (pad4L d.year ++ pad2L d.month ++ pad2L d.day)

/-- The character content of `strftime("%Y%m%d%H%M")`. -/
def stamp12 (t : DateTime) : List Char :=
  pad4L t.year ++ pad2L t.month ++ pad2L t.day ++ pad2L t.hour ++ pad2L t.minute

/-- `strftime("%Y%m%d%H%M")`: minute-granularity timestamp. -/
def format12 (t : DateTime) : String := String.mk (stamp12 t)

/-- `strftime("%Y%m%d%H%M%S")`: the 14-digit message timestamp. -/
def format14 (t : DateTime) : String := String.mk (stamp12 t ++ pad2L t.second)

/-- Days per month in a non-leap year (1-based month). -/
def monthLenNL (m : Nat) : Nat :=
  [31, 28, 31, 30, 31, 30, 31, 31, 30, 31, 30, 31].getD (m - 1) 31

/-- Gregorian leap-year test. -/
def isLeapYear (y : Nat) : Bool :=
  (y % 4 == 0 && y % 100 != 0) || y % 400 == 0

/-- Days in a month of a given year. -/
def daysInMonth (y m : Nat) : Nat :=
  if m = 2 then (if isLeapYear y then 29 else 28) else monthLenNL m

/-- A syntactically valid calendar date. -/
def ValidDate (d : Date) : Prop :=
  1 ≤ d.month ∧ d.month ≤ 12 ∧ 1 ≤ d.day ∧ d.day ≤ daysInMonth d.year d.month

/-- Whether the birthday `(m, day)` falls on or before `(today.month, today.day)`
in the year, i.e. the birthday has already occurred this year. -/
def birthdayReached (today : Date) (m day : Nat) : Prop :=
  m < today.month ∨ (m = today.month ∧ day ≤ today.day)

instance (today : Date) (m day : Nat) : Decidable (birthdayReached today m day) := by
  unfold birthdayReached; infer_instance

/-- Age in whole years of someone born on `dob`, measured at `today`. -/
def ageInYears (today dob : Date) : Nat :=
  if birthdayReached today dob.month dob.day
  then today.year - dob.year
  else today.year - dob.year - 1

/-! ## The value source (model of the Faker primitives) -/

/-- `fake.random_int(min=lo, max=hi)`: a uniform integer in `[lo, hi]`. -/
def randInt (lo hi n : Nat) : Nat := lo + n % (hi + 1 - lo)

/-- `fake.random_element(elements=l)`: a uniform element of `l`. -/
def randElem {α : Type} (l : List α) (dflt : α) (n : Nat) : α :=
  l.getD (n % l.length) dflt

/-- `fake.date_of_birth(minimum_age, maximum_age)`: a random valid calendar
date whose whole-year age relative to `today` lies in `[minAge, maxAge]`
(the contract of the Faker library primitive, abstracted as the value
source's date-in-range draw; February draws stay within 28 days so the
date is valid in every year). -/
def dateOfBirth (today : Date) (minAge maxAge n1 n2 n3 : Nat) : Date :=
  let a := minAge + n1 % (maxAge + 1 - minAge)
  let m := 1 + n2 % 12
  let day := 1 + n3 % monthLenNL m
  let y := if birthdayReached today m day then today.year - a else today.year - a - 1
  ⟨y, m, day⟩

/-- `fake.date_between(start_date=datetime(2012, 5, 30), end_date=datetime(2025, 1, 31))`:
a random date in that range, modelled as the value source's
date-in-range draw. -/
def refDateBetween (n1 n2 n3 : Nat) : Date :=
  ⟨2012 + n1 % 14, 1 + n2 % 12, 1 + n3 % 28⟩

/-! ## Decimal printing of `fake.pyfloat` results

A `pyfloat(right_digits=p)` value is a multiple of `10^(-p)`; Python
prints such a float as its integer part, a dot, and the fractional digits
with trailing zeros trimmed (keeping at least one digit). -/

/-- Trailing-zero trimming for a fractional digit list. -/
def trimZeros (l : List Char) : List Char :=
  (l.reverse.dropWhile (fun c => c == '0')).reverse

/-- The fractional digits of `v / 10^p` (where `v` is scaled by `10^p`). -/
def fracDigits (p v : Nat) : List Char :=
  (List.range p).map (fun i => digitChar (v / 10 ^ (p - 1 - i)))

/-- Print the scaled integer `v` as the decimal `v / 10^p`, exactly as
Python prints the corresponding float. -/
def decStr (p v : Nat) : String :=
  let t := trimZeros (fracDigits p v)
  toString (v / 10 ^ p) ++ "." ++ String.mk (if t.isEmpty then ['0'] else t)

/-! ## The XML element model -/

/-- An `xml.etree.ElementTree` element: a tag, an optional text value and
an ordered list of child elements. -/
inductive Elem where
  | mk : String → Option String → List Elem → Elem

/-- The element's tag. -/
def Elem.tag : Elem → String
  | .mk t _ _ => t

/-- The element's text value. -/
def Elem.text : Elem → Option String
  | .mk _ x _ => x

/-- The element's children, in document order. -/
def Elem.children : Elem → List Elem
  | .mk _ _ c => c

/-- A leaf element carrying a text value. -/
def leaf (tg txt : String) : Elem := .mk tg (some txt) []

/-- An element created by `ET.SubElement` and never populated. -/
def emptyE (tg : String) : Elem := .mk tg none []

/-- An interior element with children. -/
def node (tg : String) (cs : List Elem) : Elem := .mk tg none cs

/-- First child with the given tag. -/
def findChild (e : Elem) (t : String) : Option Elem :=
  e.children.find? (fun c => c.tag == t)

/-- Walk a path of tags from an element. -/
def descend (e : Elem) : List String → Option Elem
  | [] => some e
  | t :: ts =>
    match findChild e t with
    | none => none
    | some c => descend c ts

/-- The text found at the end of a tag path. -/
def textAt (e : Elem) (path : List String) : Option String :=
  (descend e path).bind Elem.text

/-- Fuel-bounded subtree search for a tag (the fuel 100 far exceeds the
depth of every tree the assembler produces, so the bound is never hit). -/
def containsTagF : Nat → Elem → String → Bool
  | 0, _, _ => false
  | fuel + 1, .mk tg _ cs, t => tg == t || cs.any (fun c => containsTagF fuel c t)

/-- Whether any node of the tree carries the given tag. -/
def containsTag (e : Elem) (t : String) : Bool := containsTagF 100 e t

/-! ## Reference data tables (module-level constants of the source) -/

/-- One entry of the `HEALTHLINK_MESSAGES` catalog. -/
structure MsgInfo where
  type : String
  name : String
  msh3_suffix : String
deriving DecidableEq

/-- The `HEALTHLINK_MESSAGES` message-type catalog (ids 1..31). -/
def HEALTHLINK_MESSAGES : List (Int × MsgInfo) := [
  (1, ⟨"OML_O21", "Laboratory Order", "1"⟩),
  (2, ⟨"ADT_A01", "Inpatient Admission", "2"⟩),
  (3, ⟨"REF_I12", "Outpatient Clinic Letter", "3"⟩),
  (4, ⟨"ADT_A01", "A&E Notification", "4"⟩),
  (5, ⟨"REF_I12", "Discharge Summary", "5"⟩),
  (6, ⟨"ADT_A03", "Death Notification", "6"⟩),
  (7, ⟨"ORU_R01", "Radiology Result", "7"⟩),
  (8, ⟨"SIU_S12", "OPD Appointment", "8"⟩),
  (9, ⟨"SIU_S12", "Waiting List", "9"⟩),
  (10, ⟨"ORU_R01", "Laboratory Result", "10"⟩),
  (11, ⟨"ORL_O22", "Laboratory NACK", "11"⟩),
  (12, ⟨"ADT_A03", "Discharge Notification", "12"⟩),
  (13, ⟨"ACK", "Acknowledgement", "13"⟩),
  (14, ⟨"REF_I12", "Neurology Referral", "14"⟩),
  (15, ⟨"RRI_I12", "Neurology Referral Response", "15"⟩),
  (16, ⟨"REF_I12", "Co-op Discharge", "16"⟩),
  (17, ⟨"ORU_R01", "Cardiology Result", "17"⟩),
  (18, ⟨"REF_I12", "Oesophageal and Gastric Cancer Referral", "18"⟩),
  (19, ⟨"REF_I12", "A&E Letter", "19"⟩),
  (20, ⟨"REF_I12", "Prostate Cancer Referral", "20"⟩),
  (21, ⟨"RRI_I12", "Prostate Cancer Referral Response", "21"⟩),
  (22, ⟨"REF_I12", "Breast Cancer Referral", "22"⟩),
  (23, ⟨"RRI_I12", "Breast Cancer Referral Response", "23"⟩),
  (24, ⟨"REF_I12", "Lung Cancer Referral", "24"⟩),
  (25, ⟨"RRI_I12", "Lung Cancer Referral Response", "25"⟩),
  (26, ⟨"REF_I12", "Chest Pain Referral", "26"⟩),
  (27, ⟨"RRI_I12", "Chest Pain Referral Response", "27"⟩),
  (28, ⟨"REF_I12", "MRI Request", "28"⟩),
  (29, ⟨"RRI_I12", "MRI Request Response", "29"⟩),
  (30, ⟨"REF_I12", "General Referral", "30"⟩),
  (31, ⟨"RRI_I12", "General Referral Response", "31"⟩)]

/-- `HEALTHLINK_MESSAGES[msg_type_id]`, as a partial lookup. -/
def lookupMsg (id : Int) : Option MsgInfo := HEALTHLINK_MESSAGES.lookup id

/-- One entry of `IRISH_HOSPITALS`. -/
structure Hospital where
  name : String
  hipe : String
  doh : String
deriving DecidableEq

/-- The `IRISH_HOSPITALS` table. -/
def IRISH_HOSPITALS : List Hospital := [
  ⟨"ST. VINCENT\x27S UNIVERSITY HOSPITAL", "907", "907"⟩,
  ⟨"MATER MISERICORDIAE UNIVERSITY HOSPITAL", "908", "908"⟩,
  ⟨"BEAUMONT HOSPITAL", "909", "909"⟩,
  ⟨"ST. JAMES\x27S HOSPITAL", "910", "910"⟩,
  ⟨"TALLAGHT UNIVERSITY HOSPITAL", "911", "911"⟩,
  ⟨"CONNOLLY HOSPITAL", "912", "912"⟩,
  ⟨"CORK UNIVERSITY HOSPITAL", "913", "913"⟩,
  ⟨"MERCY UNIVERSITY HOSPITAL", "914", "914"⟩,
  ⟨"UNIVERSITY HOSPITAL GALWAY", "915", "915"⟩,
  ⟨"UNIVERSITY HOSPITAL LIMERICK", "916", "916"⟩,
  ⟨"UNIVERSITY HOSPITAL WATERFORD", "917", "917"⟩,
  ⟨"MAYO UNIVERSITY HOSPITAL", "918", "918"⟩,
  ⟨"LETTERKENNY UNIVERSITY HOSPITAL", "919", "919"⟩,
  ⟨"SLIGO UNIVERSITY HOSPITAL", "920", "920"⟩,
  ⟨"NAAS GENERAL HOSPITAL", "921", "921"⟩,
  ⟨"ROTUNDA HOSPITAL", "932", "932"⟩,
  ⟨"AMNCH", "1049", "1049"⟩,
  ⟨"OUR LADY OF LOURDES HOSPITAL", "925", "925"⟩,
  ⟨"COOMBE WOMENS & INFANTS UNIVERSITY HOSPITAL", "933", "933"⟩]

/-- The `MEDICAL_SPECIALTIES` table. -/
def MEDICAL_SPECIALTIES : List String := [
  "CARDIOLOGY", "NEUROLOGY", "ONCOLOGY", "GENERAL_SURGERY", "ORTHOPAEDICS",
  "GASTROENTEROLOGY", "RESPIRATORY", "ENDOCRINOLOGY", "RADIOLOGY", "PATHOLOGY",
  "DERMATOLOGY", "OPHTHALMOLOGY", "ENT", "UROLOGY", "GYNAECOLOGY"]

/-- One entry of `LAB_TESTS`. -/
structure LabTest where
  code : String
  name : String
  loinc : String
deriving DecidableEq

/-- The `LAB_TESTS` table. -/
def LAB_TESTS : List LabTest := [
  ⟨"FBC", "Full Blood Count", "57782-5"⟩,
  ⟨"U&E", "Urea and Electrolytes", "24362-6"⟩,
  ⟨"LFT", "Liver Function Tests", "24325-3"⟩,
  ⟨"TFT", "Thyroid Function Tests", "24323-8"⟩,
  ⟨"LIPIDS", "Lipid Profile", "57698-3"⟩,
  ⟨"HBA1C", "Haemoglobin A1c", "4548-4"⟩,
  ⟨"INR", "International Normalized Ratio", "6301-6"⟩,
  ⟨"CRP", "C-Reactive Protein", "1988-5"⟩,
  ⟨"ESR", "Erythrocyte Sedimentation Rate", "30341-2"⟩,
  ⟨"TROPONIN", "Troponin I", "10839-9"⟩,
  ⟨"MHH", "Mercy Hepatitis/HIV screen", ""⟩,
  ⟨"GLUCOSE", "Glucose Random", "2345-7"⟩,
  ⟨"TSH", "Thyroid Stimulating Hormone", "3016-3"⟩,
  ⟨"PSA", "Prostate Specific Antigen", "2857-1"⟩,
  ⟨"URINALYSIS", "Urinalysis Complete", "24357-6"⟩]

/-- `IRISH_PATIENT_DATA["first_names_male"]`. -/
def FIRST_NAMES_MALE : List String := [
  "Sean", "Patrick", "Michael", "John", "Brian", "Kevin", "Cian", "Oisin", "Darragh", "Conor",
  "Mohammed", "Ali", "Ahmed", "Omar", "Hassan", "Ibrahim",
  "Andrei", "Alexandru", "Mihai", "Cristian", "Stefan",
  "Piotr", "Jakub", "Tomasz", "Marcin", "Krzysztof",
  "Carlos", "Jose", "Miguel", "Diego", "Antonio",
  "Giovanni", "Marco", "Luca", "Francesco", "Andrea",
  "Johann", "Klaus", "Andreas", "Stefan", "Thomas",
  "Samuel", "Gabriel", "Emmanuel", "Joshua", "Benjamin",
  "Raj", "Arjun", "Vikram", "Rohit", "Amit",
  "Wei", "Ming", "Jun", "Lei", "Hao"]

/-- `IRISH_PATIENT_DATA["first_names_female"]`. -/
def FIRST_NAMES_FEMALE : List String := [
  "Mary", "Patricia", "Catherine", "Margaret", "Sarah", "Emma", "Niamh", "Aoife", "Siobhan", "Claire",
  "Fatima", "Aisha", "Zara", "Layla", "Amina", "Yasmin",
  "Maria", "Ana", "Elena", "Ioana", "Andreea",
  "Anna", "Katarzyna", "Agnieszka", "Magdalena", "Joanna",
  "Carmen", "Isabel", "Sofia", "Lucia", "Andrea",
  "Giulia", "Francesca", "Chiara", "Valentina", "Elisabetta",
  "Anna", "Petra", "Sabine", "Christina", "Monika",
  "Grace", "Faith", "Hope", "Joy", "Charity",
  "Priya", "Anita", "Kavya", "Riya", "Meera",
  "Li", "Mei", "Yan", "Xin", "Ling"]

/-- `IRISH_PATIENT_DATA["surnames"]`. -/
def SURNAMES : List String := [
  "Murphy", "Kelly", "O\x27Sullivan", "Walsh", "Smith", "O\x27Brien", "Byrne", "Ryan", "O\x27Connor", "O\x27Neill",
  "Dunne", "McCarthy", "Gallagher", "O\x27Doherty", "Kennedy", "Lynch", "Murray", "Quinn", "Moore", "McLoughlin",
  "Hassan", "Ali", "Ahmed", "Khan", "Mohamed", "Hussain",
  "Popescu", "Ionescu", "Popa", "Radu", "Stan",
  "Kowalski", "Nowak", "Wisniewski", "Wojcik", "Kowalczyk",
  "Garcia", "Rodriguez", "Martinez", "Lopez", "Gonzalez",
  "Rossi", "Ferrari", "Russo", "Bianchi", "Romano",
  "Mueller", "Schmidt", "Schneider", "Fischer", "Weber",
  "Patel", "Singh", "Kumar", "Sharma", "Gupta",
  "Wang", "Li", "Zhang", "Liu", "Chen",
  "Silva", "Santos", "Oliveira", "Pereira", "Costa",
  "Andersson", "Johansson", "Karlsson", "Nilsson", "Eriksson",
  "Johnson", "Williams", "Brown", "Jones", "Miller"]

/-- `IRISH_PATIENT_DATA["addresses"]["Dublin"]` (the only address list the
generator reads). -/
def DUBLIN_ADDRESSES : List String := [
  "Grafton Street", "O\x27Connell Street", "Dame Street", "Temple Bar", "Phoenix Park", "Ballsbridge", "Rathmines", "Clontarf",
  "Parnell Street", "Capel Street", "Moore Street", "Smithfield", "Stoneybatter", "Drumcondra", "Glasnevin", "Blanchardstown",
  "Tallaght", "Lucan", "Swords", "Balbriggan", "Ongar", "Tyrrelstown"]

/-- One entry of `IRISH_MEDICAL_CONDITIONS`; `prevalence_pct` is the exact
value of the Python expression `prevalence * 100` (each IEEE-double
product rounds to this integer). -/
structure MedicalCondition where
  condition : String
  icd10 : String
  prevalence_pct : Nat
deriving DecidableEq

/-- The `IRISH_MEDICAL_CONDITIONS` table. -/
def IRISH_MEDICAL_CONDITIONS : List MedicalCondition := [
  ⟨"Essential Hypertension", "I10", 25⟩,
  ⟨"Type 2 Diabetes Mellitus", "E11", 5⟩,
  ⟨"Chronic Obstructive Pulmonary Disease", "J44", 4⟩,
  ⟨"Atrial Fibrillation", "I48", 2⟩,
  ⟨"Coronary Artery Disease", "I25", 3⟩,
  ⟨"Osteoarthritis", "M15", 8⟩,
  ⟨"Depression", "F32", 6⟩,
  ⟨"Hyperlipidemia", "E78", 15⟩]

/-- One entry of `IRISH_GP_PRACTICES`. -/
structure GPPractice where
  name : String
  gms_code : String
  eircode : String
deriving DecidableEq

/-- The `IRISH_GP_PRACTICES` table. -/
def IRISH_GP_PRACTICES : List GPPractice := [
  ⟨"Temple Street Medical Centre", "12345", "D01 R2P4"⟩,
  ⟨"Grafton Street Family Practice", "12346", "D02 XY24"⟩,
  ⟨"Blackrock Medical Centre", "12347", "A94 E2W8"⟩,
  ⟨"Rathmines Health Clinic", "12348", "D06 H294"⟩,
  ⟨"Clontarf Family Doctors", "12349", "D03 T5P9"⟩,
  ⟨"Multicultural Health Centre", "12350", "D01 K5R7"⟩,
  ⟨"Parnell Street Medical Practice", "12351", "D01 T2X9"⟩,
  ⟨"Smithfield Community Health", "12352", "D07 P6W3"⟩,
  ⟨"Blanchardstown Family Clinic", "12353", "D15 Y8N4"⟩,
  ⟨"Ballymun Medical Centre", "12354", "D11 A5R8"⟩]

/-- One entry of `IRISH_CONSULTANTS`. -/
structure Consultant where
  name : String
  specialty : String
  mcn : String
deriving DecidableEq

/-- The `IRISH_CONSULTANTS` table. -/
def IRISH_CONSULTANTS : List Consultant := [
  ⟨"Dr. Mairead O\x27Brien", "CARDIOLOGY", "234567.1234"⟩,
  ⟨"Dr. Padraig Murphy", "NEUROLOGY", "234568.1234"⟩,
  ⟨"Dr. Siobhan Kelly", "ONCOLOGY", "234569.1234"⟩,
  ⟨"Dr. Brendan Walsh", "ORTHOPAEDICS", "234570.1234"⟩,
  ⟨"Dr. Nuala Ryan", "GASTROENTEROLOGY", "234571.1234"⟩,
  ⟨"Dr. Ahmed Hassan", "CARDIOLOGY", "234572.1234"⟩,
  ⟨"Dr. Priya Patel", "ENDOCRINOLOGY", "234573.1234"⟩,
  ⟨"Dr. Maria Rodriguez", "PAEDIATRICS", "234574.1234"⟩,
  ⟨"Dr. Wei Zhang", "RADIOLOGY", "234575.1234"⟩,
  ⟨"Dr. Anna Kowalski", "PSYCHIATRY", "234576.1234"⟩,
  ⟨"Dr. Giovanni Rossi", "GENERAL_SURGERY", "234577.1234"⟩,
  ⟨"Dr. Fatima Al-Rashid", "OBSTETRICS", "234578.1234"⟩,
  ⟨"Dr. Klaus Mueller", "ANAESTHETICS", "234579.1234"⟩,
  ⟨"Dr. Raj Sharma", "OPHTHALMOLOGY", "234580.1234"⟩,
  ⟨"Dr. Elena Popescu", "DERMATOLOGY", "234581.1234"⟩]

/-- The county list local to `generate_patient_data`. -/
def IRISH_COUNTIES : List String := [
  "Dublin", "Cork", "Galway", "Limerick", "Waterford", "Kilkenny",
  "Clare", "Kerry", "Mayo", "Donegal", "Wexford", "Tipperary", "Sligo"]

/-- The Eircode area codes local to `generate_patient_data`. -/
def EIRCODE_AREAS : List String := [
  "D01", "D02", "D03", "D04", "D05", "D06", "D07", "D08", "T12", "T23",
  "A94", "H91", "V92", "P85", "Y35", "F91", "N91"]

/-- First Eircode letter set. -/
def EIRCODE_L1 : List String := ["P", "T", "K", "R", "X", "W", "E"]

/-- Second Eircode letter set. -/
def EIRCODE_L2 : List String := ["W", "E", "R", "T", "Y", "A", "S", "D"]

/-- The PPS check-letter set (no I or O). -/
def PPS_LETTERS : List String := [
  "A", "B", "C", "D", "E", "F", "G", "H", "J", "K", "L", "M",
  "N", "P", "Q", "R", "S", "T", "U", "V", "W", "X", "Y", "Z"]

/-! ## Entity synthesizer (`generate_patient_data`, `generate_doctor_data`) -/

/-- One draw per Faker call of `generate_patient_data`, in source order.
`city` is the string returned by the external `fake.city()` call. -/
structure PatientDraws where
  gender : Nat := 0
  firstName : Nat := 0
  lastName : Nat := 0
  mrnPre : Nat := 0
  mrnNum : Nat := 0
  eirArea : Nat := 0
  eirL1 : Nat := 0
  eirL2 : Nat := 0
  eirNum : Nat := 0
  addr1 : Nat := 0
  city : String := ""
  county : Nat := 0
  cond : Nat := 0
  condRoll : Nat := 0
  idDraw : Nat := 0
  pps1 : Nat := 0
  pps2 : Nat := 0
  pps3 : Nat := 0
  dobA : Nat := 0
  dobM : Nat := 0
  dobD : Nat := 0
  phone1 : Nat := 0
  phone2 : Nat := 0
  phone3 : Nat := 0
  mob1 : Nat := 0
  mob2 : Nat := 0
  nhi1 : Nat := 0
  nhi2 : Nat := 0
  ageDraw : Nat := 0
  gp : Nat := 0

/-- The Patient record returned by `generate_patient_data`. -/
structure Patient where
  id : Nat
  mrn : String
  pps : String
  first_name : String
  last_name : String
  dob : String
  gender : String
  address_line1 : String
  address_line2 : String
  county : String
  eircode : String
  phone : String
  mobile : String
  nhi : String
  full_name : String
  clinical_condition : String
  clinical_condition_code : String
  age : Nat
  gp_practice : GPPractice

/-- `generate_patient_data` (source lines 242-297), relative to the
current date `today` (used by `fake.date_of_birth`). -/
def generate_patient_data (today : Date) (d : PatientDraws) : Patient :=
  let gender := randElem ["M", "F"] "" d.gender
  let first_name :=
    if gender = "M" then randElem FIRST_NAMES_MALE "" d.firstName
    else randElem FIRST_NAMES_FEMALE "" d.firstName
  let last_name := randElem SURNAMES "" d.lastName
  let mrn := randElem ["M", "P", "H"] "" d.mrnPre ++ toString (randInt 1 999999 d.mrnNum)
  let eircode := randElem EIRCODE_AREAS "" d.eirArea ++ randElem EIRCODE_L1 "" d.eirL1 ++
    randElem EIRCODE_L2 "" d.eirL2 ++ toString (randInt 10 99 d.eirNum)
  let address_line1 := randElem DUBLIN_ADDRESSES "" d.addr1
  let county := randElem IRISH_COUNTIES "" d.county
  let clinical_condition := randElem IRISH_MEDICAL_CONDITIONS ⟨"", "", 0⟩ d.cond
  let has_clinical_condition := randInt 0 100 d.condRoll < clinical_condition.prevalence_pct
  { id := randInt 100000 999999 d.idDraw
    mrn := mrn
    pps := toString (randInt 100000 999999 d.pps1) ++ toString (randInt 10 99 d.pps2) ++
      randElem PPS_LETTERS "" d.pps3
    first_name := first_name
    last_name := last_name
    dob := format8 (dateOfBirth today 18 90 d.dobA d.dobM d.dobD)
    gender := gender
    address_line1 := address_line1
    address_line2 := d.city
    county := county
    eircode := eircode
    phone := "0" ++ toString (randInt 21 99 d.phone1) ++ " " ++
      toString (randInt 400 999 d.phone2) ++ toString (randInt 1000 9999 d.phone3)
    mobile := "087 " ++ toString (randInt 100 999 d.mob1) ++ toString (randInt 1000 9999 d.mob2)
    nhi := "IE" ++ toString (randInt 100000 999999 d.nhi1) ++ toString (randInt 100 999 d.nhi2)
    full_name := last_name.toUpper ++ "," ++ first_name.toUpper
    clinical_condition := if has_clinical_condition then clinical_condition.condition else ""
    clinical_condition_code := if has_clinical_condition then clinical_condition.icd10 else ""
    age := randInt 18 90 d.ageDraw
    gp_practice := randElem IRISH_GP_PRACTICES ⟨"", "", ""⟩ d.gp }

/-- One draw per Faker call of `generate_doctor_data`. -/
structure DoctorDraws where
  consultant : Nat := 0
  mcnMain : Nat := 0
  mcnSuf : Nat := 0
  fmt : Nat := 0
  hosp : Nat := 0

/-- The doctor record returned by `generate_doctor_data`. -/
structure Doctor where
  name : String
  mcn : String
  practice_id : String
  specialty : String
  hospital_affiliation : String

/-- `generate_doctor_data` (source lines 299-321). -/
def generate_doctor_data (d : DoctorDraws) : Doctor :=
  let consultant := randElem IRISH_CONSULTANTS ⟨"", "", ""⟩ d.consultant
  let name_formats := [
    consultant.name.replace "Dr. " "Dr ",
    (consultant.name.replace "Dr. " "DR ").toUpper,
    (consultant.name.replace "Dr. " "").replace " " ","]
  { name := randElem name_formats "" d.fmt
    mcn := toString (randInt 10000 999999 d.mcnMain) ++ "." ++ toString (randInt 1000 9999 d.mcnSuf)
    practice_id := "MCN.HLPracticeID"
    specialty := consultant.specialty
    hospital_affiliation := (randElem IRISH_HOSPITALS ⟨"", "", ""⟩ d.hosp).name }

/-! ## Segment builders -/

/-- `create_pid_segment` (source lines 326-399): the patient
identification subtree.  The two `PID.13` blocks are appended only when
`patient["phone"]` / `patient["mobile"]` are truthy (non-empty). -/
def create_pid_segment (patient : Patient) : Elem :=
  node "PID" (
    [node "PID.3" [
        leaf "CX.1" patient.mrn,
        emptyE "CX.2",
        emptyE "CX.3",
        node "CX.4" [leaf "HD.1" "Mercy University Hospital", emptyE "HD.2", emptyE "HD.3"],
        leaf "CX.5" "MRN"],
     node "PID.5" [
        node "XPN.1" [leaf "FN.1" patient.last_name.toUpper],
        leaf "XPN.2" patient.first_name.toUpper,
        emptyE "XPN.3", emptyE "XPN.4", emptyE "XPN.5", emptyE "XPN.6", emptyE "XPN.7"],
     node "PID.7" [leaf "TS.1" patient.dob],
     leaf "PID.8" patient.gender,
     node "PID.11" [
        node "XAD.1" [leaf "SAD.1" patient.address_line1],
        leaf "XAD.2" patient.address_line2,
        leaf "XAD.3" patient.county,
        leaf "XAD.4" patient.county.toUpper,
        leaf "XAD.5" patient.eircode]] ++
    (if patient.phone ≠ "" then
      [node "PID.13" [leaf "XTN.1" patient.phone, leaf "XTN.2" "PRN", leaf "XTN.3" "PH"]]
     else []) ++
    (if patient.mobile ≠ "" then
      [node "PID.13" [leaf "XTN.1" patient.mobile, leaf "XTN.2" "PRN", leaf "XTN.3" "CP"]]
     else []))

/-! ### Local lab-result generators (source lines 821-961) -/

/-- One draw per Faker call across the per-test generators that the
`results` dictionary of `generate_lab_result` evaluates; `sentence` is the
string from the external `fake.sentence()` in the default branch. -/
structure LabDraws where
  fbcRoll : Nat := 0
  fbcWbcLo : Nat := 0
  fbcWbcHi : Nat := 0
  fbcWbcPick : Nat := 0
  fbcHgbLo : Nat := 0
  fbcHgbHi : Nat := 0
  fbcHgbPick : Nat := 0
  fbcWbcN : Nat := 0
  fbcHgbN : Nat := 0
  fbcRbc : Nat := 0
  fbcHct : Nat := 0
  ueNa : Nat := 0
  ueK : Nat := 0
  ueUrea : Nat := 0
  ueCr : Nat := 0
  lftAlt : Nat := 0
  lftAst : Nat := 0
  lftAlp : Nat := 0
  lftBili : Nat := 0
  tftTsh : Nat := 0
  tftT4 : Nat := 0
  hbP : Nat := 0
  hbM : Nat := 0
  inrDraw : Nat := 0
  crpDraw : Nat := 0
  esrDraw : Nat := 0
  tropDraw : Nat := 0
  gluDraw : Nat := 0
  tshDraw : Nat := 0
  psaDraw : Nat := 0
  uriPro : Nat := 0
  uriGlu : Nat := 0
  uriBld : Nat := 0
  uriLeu : Nat := 0
  sentence : String := ""

/-- `generate_fbc_results`. -/
def generate_fbc_results (d : LabDraws) : String :=
  let is_abnormal := randInt 0 100 d.fbcRoll < 15
  let wbc := if is_abnormal
    then randElem [randInt 2 3 d.fbcWbcLo, randInt 12 18 d.fbcWbcHi] 0 d.fbcWbcPick
    else randInt 4 11 d.fbcWbcN
  let hgb := if is_abnormal
    then randElem [randInt 80 110 d.fbcHgbLo, randInt 190 220 d.fbcHgbHi] 0 d.fbcHgbPick
    else randInt 120 180 d.fbcHgbN
  let status := if is_abnormal then " (ABNORMAL)" else ""
  let rbc := randInt 400 600 d.fbcRbc
  let hct := randInt 350 500 d.fbcHct
  "WBC: " ++ toString wbc ++ "x10^9/L, RBC: " ++ decStr 2 rbc ++ "x10^12/L, Hgb: " ++
    toString hgb ++ "g/L, Hct: " ++ decStr 1 hct ++ "%" ++ status

/-- `generate_ue_results`. -/
def generate_ue_results (d : LabDraws) : String :=
  "Sodium: " ++ toString (randInt 135 145 d.ueNa) ++ "mmol/L, Potassium: " ++
    decStr 1 (randInt 35 50 d.ueK) ++ "mmol/L, Urea: " ++ decStr 1 (randInt 25 80 d.ueUrea) ++
    "mmol/L, Creatinine: " ++ toString (randInt 60 120 d.ueCr) ++ "umol/L"

/-- `generate_lft_results`. -/
def generate_lft_results (d : LabDraws) : String :=
  "ALT: " ++ toString (randInt 10 40 d.lftAlt) ++ "U/L, AST: " ++ toString (randInt 10 40 d.lftAst) ++
    "U/L, ALP: " ++ toString (randInt 30 120 d.lftAlp) ++ "U/L, Bilirubin: " ++
    toString (randInt 5 25 d.lftBili) ++ "umol/L"

/-- `generate_hba1c_results`. -/
def generate_hba1c_results (d : LabDraws) : String :=
  let hba1c_percent := randInt 40 120 d.hbP
  let hba1c_mmol := randInt 20 108 d.hbM
  let context := if 65 < hba1c_percent then " (Diabetes mellitus)"
    else if 60 < hba1c_percent then " (Pre-diabetes)"
    else " (Normal)"
  decStr 1 hba1c_percent ++ "% (" ++ toString hba1c_mmol ++ "mmol/mol)" ++ context

/-- `generate_crp_results`. -/
def generate_crp_results (d : LabDraws) : String :=
  let crp := randInt 5 2000 d.crpDraw
  let context := if 100 < crp then " (Elevated - inflammation/infection)" else " (Normal)"
  decStr 1 crp ++ "mg/L" ++ context

/-- `generate_troponin_results`. -/
def generate_troponin_results (d : LabDraws) : String :=
  let troponin := randInt 1 50000 d.tropDraw
  let context := if 40 < troponin then " (ELEVATED - possible MI)" else " (Normal)"
  decStr 3 troponin ++ "ng/mL" ++ context

/-- The glucose string as a function of the scaled glucose value. -/
def glucoseString (glucose : Nat) : String :=
  let context := if 111 < glucose then " (Diabetes range)"
    else if 78 < glucose then " (Impaired glucose tolerance)"
    else " (Normal)"
  decStr 1 glucose ++ "mmol/L" ++ context

/-- `generate_glucose_results`. -/
def generate_glucose_results (n : Nat) : String := glucoseString (randInt 35 150 n)

/-- `generate_psa_results`. -/
def generate_psa_results (d : LabDraws) : String :=
  let psa := randInt 10 1000 d.psaDraw
  let context := if 400 < psa then " (Elevated - further investigation needed)" else " (Normal)"
  decStr 2 psa ++ "ng/mL" ++ context

/-- `generate_inr_results`. -/
def generate_inr_results (d : LabDraws) : String :=
  let inr := randInt 8 45 d.inrDraw
  let context := if 30 < inr then " (High - bleeding risk)"
    else if 15 < inr then " (Therapeutic anticoagulation)"
    else " (Normal/subtherapeutic)"
  decStr 1 inr ++ context

/-- `generate_urinalysis_results`. -/
def generate_urinalysis_results (d : LabDraws) : String :=
  "Protein: " ++ randElem ["NEGATIVE", "TRACE", "+", "++"] "" d.uriPro ++
    ", Glucose: " ++ randElem ["NEGATIVE", "TRACE", "+"] "" d.uriGlu ++
    ", Blood: " ++ randElem ["NEGATIVE", "TRACE", "+"] "" d.uriBld ++
    ", Leucocytes: " ++ randElem ["NEGATIVE", "TRACE", "+"] "" d.uriLeu

/-- The `results` dictionary of `generate_lab_result` (all generators are
evaluated when the dictionary literal is built, then one entry is read). -/
def labResults (d : LabDraws) : List (String × String) := [
  ("FBC", generate_fbc_results d),
  ("U&E", generate_ue_results d),
  ("LFT", generate_lft_results d),
  ("TFT", "TSH: " ++ decStr 2 (randInt 50 450 d.tftTsh) ++ "mU/L, T4: " ++
    toString (randInt 9 25 d.tftT4) ++ "pmol/L"),
  ("HBA1C", generate_hba1c_results d),
  ("INR", generate_inr_results d),
  ("CRP", generate_crp_results d),
  ("ESR", toString (randInt 2 30 d.esrDraw) ++ "mm/hr"),
  ("TROPONIN", generate_troponin_results d),
  ("MHH", "Hepatitis B Surface Antigen: NEGATIVE\nHepatitis C Antibody: NEGATIVE\nHIV 1&2 Antibody: NEGATIVE"),
  ("GLUCOSE", generate_glucose_results d.gluDraw),
  ("TSH", decStr 2 (randInt 40 500 d.tshDraw) ++ "mU/L"),
  ("PSA", generate_psa_results d),
  ("URINALYSIS", generate_urinalysis_results d)]

/-- `generate_lab_result` (source lines 821-842): `results.get(test_code,
f"Result: {fake.sentence()}")`. -/
def generate_lab_result (test_code : String) (d : LabDraws) : String :=
  ((labResults d).lookup test_code).getD ("Result: " ++ d.sentence)

/-! ### AI-enhanced text functions (client always absent)

`AZURE_OPENAI_AVAILABLE = False` in this source, so `azure_openai_client`
is `None` on every call and each of these functions returns its local
fallback; the embedding is that fallback branch. -/

/-- `generate_ai_enhanced_clinical_notes` (source lines 1421-1470) with
`azure_openai_client = None`: the `fallback_notes` table lookup with
default `"Clinical note documented."`. -/
def generate_ai_enhanced_clinical_notes (note_type : String) (_patient : Patient)
    (_clinical_context : String) : String :=
  (([("DISCHARGE", "Patient stable for discharge. Follow-up as arranged."),
     ("CLINICAL", "Clinical assessment completed. Management plan discussed."),
     ("FOLLOWUP", "Routine follow-up appointment scheduled."),
     ("ADMISSION", "Patient admitted for further assessment and management.")] :
      List (String × String)).lookup note_type).getD "Clinical note documented."

/-- `generate_ai_enhanced_referral_reason` (source lines 1300-1367) with
`azure_openai_client = None`: the `fallback_reasons` table lookup with
default `"Clinical assessment required"`. -/
def generate_ai_enhanced_referral_reason (specialty : String) (_patient : Patient)
    (_clinical_condition : String) : String :=
  (([("CARDIOLOGY", "Chest pain and abnormal ECG findings requiring specialist assessment"),
     ("NEUROLOGY", "Neurological symptoms requiring specialist evaluation"),
     ("ONCOLOGY", "Abnormal screening results requiring urgent specialist review"),
     ("ORTHOPAEDICS", "Joint pain and mobility issues requiring orthopedic assessment"),
     ("GASTROENTEROLOGY", "Gastrointestinal symptoms requiring specialist investigation"),
     ("RESPIRATORY", "Respiratory symptoms and abnormal chest imaging"),
     ("ENDOCRINOLOGY", "Diabetes management and endocrine disorder assessment"),
     ("RADIOLOGY", "Clinical indication for advanced imaging studies"),
     ("DERMATOLOGY", "Skin lesion requiring dermatological evaluation"),
     ("OPHTHALMOLOGY", "Visual symptoms requiring ophthalmologic assessment"),
     ("ENT", "ENT symptoms requiring specialist evaluation"),
     ("UROLOGY", "Urological symptoms requiring specialist assessment"),
     ("GYNAECOLOGY", "Gynecological symptoms requiring specialist evaluation")] :
      List (String × String)).lookup specialty).getD "Clinical assessment required"

/-- `generate_ai_enhanced_discharge_summary` (source lines 1472-1516) with
`azure_openai_client = None`: the fixed fallback string. -/
def generate_ai_enhanced_discharge_summary (_patient : Patient) (_admission_reason : String)
    (_hospital_course : String) : String :=
  "Patient admitted for assessment. Treatment provided as indicated. Discharged in stable condition with appropriate follow-up arranged."

/-- Python's `str.title()` applied after `.replace("_", " ")` in the
referral builder: capitalize the letter after every non-letter, lowercase
the rest. -/
def pyTitleAux : List Char → Bool → List Char
  | [], _ => []
  | c :: cs, prevAlpha =>
    (if c.isAlpha then (if prevAlpha then c.toLower else c.toUpper) else c) :: pyTitleAux cs c.isAlpha

/-- Python `str.title()`. -/
def pyTitle (s : String) : String := String.mk (pyTitleAux s.data false)

/-! ### Per-message-type segment builders -/

/-- Draws of `create_oru_r01_segments`. -/
structure OruDraws where
  pv1Class : Nat := 0
  pv1Loc : Nat := 0
  obr2a : Nat := 0
  obr2b : Nat := 0
  obr3n : Nat := 0
  obr3l : Nat := 0
  test : Nat := 0
  lab : LabDraws := {}

/-- `create_oru_r01_segments` (source lines 457-621): the elements this
builder appends to the message root.  `msg_type_id ∈ {7, 17}` marks a
radiology/cardiology result; with the narrative client absent the OBX.5
value is the radiology fallback string for those, and
`generate_lab_result` otherwise. -/
def create_oru_r01_segments (patient : Patient) (hospital : Hospital) (timestamp : String)
    (msg_type_id : Int) (d : OruDraws) : List Elem :=
  let test := randElem LAB_TESTS ⟨"", "", ""⟩ d.test
  let is_radiology := msg_type_id = 7 ∨ msg_type_id = 17
  let obx5text := if is_radiology
    then test.name ++ ": Normal study. No acute abnormality detected."
    else generate_lab_result test.code d.lab
  let nteText := if is_radiology
    then generate_ai_enhanced_clinical_notes "RADIOLOGY" patient (test.name ++ " interpretation")
    else generate_ai_enhanced_clinical_notes "LABORATORY" patient (test.name ++ " results")
  [node "ORU_R01.PATIENT_RESULT" [
    node "ORU_R01.PATIENT" [
      create_pid_segment patient,
      node "ORU_R01.PATIENT_VISIT" [
        node "PV1" [
          leaf "PV1.2" (randElem ["I", "O", "E", "G"] "" d.pv1Class),
          node "PV1.3" [
            leaf "PL.1" (randElem ["LTESGP", "WARD1", "ICU", "ED", "OPD"] "" d.pv1Loc),
            emptyE "PL.2", emptyE "PL.3",
            node "PL.4" [emptyE "HD.1", emptyE "HD.2", emptyE "HD.3"],
            emptyE "PL.5", emptyE "PL.6", emptyE "PL.7", emptyE "PL.8",
            leaf "PL.9" "Live Healthlink Location"],
          node "PV1.19" [emptyE "CX.1"]]]],
    node "ORU_R01.ORDER_OBSERVATION" [
      node "OBR" [
        leaf "OBR.1" "1",
        node "OBR.2" [
          leaf "EI.1" (toString (randInt 6000 9999 d.obr2a) ++
            toString (randInt 100000 999999 d.obr2b) ++ (hospital.name.take 4).toUpper),
          emptyE "EI.2"],
        node "OBR.3" [
          leaf "EI.1" ("JS" ++ toString (randInt 100000 999999 d.obr3n) ++
            randElem ["A", "B", "C", "D"] "" d.obr3l),
          emptyE "EI.2", emptyE "EI.3", emptyE "EI.4"],
        node "OBR.4" [
          leaf "CE.1" test.code, leaf "CE.2" test.name, leaf "CE.3" "L",
          emptyE "CE.4", emptyE "CE.5", emptyE "CE.6"],
        node "OBR.7" [leaf "TS.1" timestamp],
        emptyE "OBR.13",
        node "OBR.14" [leaf "TS.1" timestamp],
        node "OBR.15" [
          node "SPS.1" [
            leaf "CE.1" "XXX", leaf "CE.2" "Specified in report", leaf "CE.3" "L",
            emptyE "CE.4", emptyE "CE.5", emptyE "CE.6"],
          emptyE "SPS.2", emptyE "SPS.3",
          node "SPS.4" [emptyE "CE.1", emptyE "CE.2", emptyE "CE.3"]]],
      node "ORU_R01.OBSERVATION" [
        node "OBX" [
          leaf "OBX.1" "1",
          leaf "OBX.2" "TX",
          node "OBX.3" [leaf "CE.1" test.code, leaf "CE.2" test.name, leaf "CE.3" "L"],
          leaf "OBX.5" obx5text,
          leaf "OBX.11" "F"],
        node "NTE" [leaf "NTE.1" "1", leaf "NTE.3" nteText]]]]]

/-- Draws of `create_adt_segments`. -/
structure AdtDraws where
  cls : Nat := 0
  loc : Nat := 0
  bed : Nat := 0

/-- `create_adt_segments` (source lines 623-645). -/
def create_adt_segments (patient : Patient) (_hospital : Hospital) (timestamp : String)
    (_message_type : String) (d : AdtDraws) : List Elem :=
  [node "EVN" [node "EVN.2" [leaf "TS.1" timestamp]],
   create_pid_segment patient,
   node "PV1" [
     leaf "PV1.2" (randElem ["I", "O", "E"] "" d.cls),
     node "PV1.3" [
       leaf "PL.1" (randElem ["WARD1", "WARD2", "ICU", "ED"] "" d.loc),
       leaf "PL.2" (randElem ["BED1", "BED2", "BED3"] "" d.bed)]]]

/-- Draws of `create_ref_i12_segments`. -/
structure RefDraws where
  priority : Nat := 0
  specialty : Nat := 0
  refY : Nat := 0
  refM : Nat := 0
  refD : Nat := 0
  refN1 : Nat := 0
  refN2 : Nat := 0
  doctor : DoctorDraws := {}

/-- `create_ref_i12_segments` (source lines 647-764). -/
def create_ref_i12_segments (patient : Patient) (_hospital : Hospital) (timestamp : String)
    (msg_type_id : Int) (d : RefDraws) : List Elem :=
  let specialty := randElem MEDICAL_SPECIALTIES "" d.specialty
  let doctor := generate_doctor_data d.doctor
  let ref_date := refDateBetween d.refY d.refM d.refD
  [node "RF1" [
     node "RF1.1" [
       leaf "CE.1" "P", leaf "CE.2" "Pending", leaf "CE.3" "L",
       emptyE "CE.4", emptyE "CE.5", emptyE "CE.6"],
     node "RF1.2" [
       leaf "CE.1" (randElem ["R", "U", "S"] "" d.priority), leaf "CE.2" "Routine",
       leaf "CE.3" "L", emptyE "CE.4", emptyE "CE.5", emptyE "CE.6"],
     node "RF1.3" [
       leaf "CE.1" specialty, leaf "CE.2" (pyTitle (specialty.replace "_" " ")),
       leaf "CE.3" "L", emptyE "CE.4", emptyE "CE.5", emptyE "CE.6"],
     leaf "RF1.4" (generate_ai_enhanced_referral_reason specialty patient
       patient.clinical_condition_code),
     node "RF1.6" [
       leaf "EI.1" ("REF" ++ format8 ref_date ++ toString (randInt 130000 200000 d.refN1) ++
         toString (randInt 100000 999999 d.refN2)),
       emptyE "EI.2", emptyE "EI.3", emptyE "EI.4"],
     node "RF1.7" [leaf "TS.1" (timestamp.take 8)]],
   node "REF_I12.PROVIDER_CONTACT" [
     node "PRD" [
       node "PRD.1" [
         leaf "CE.1" "PP", leaf "CE.2" "Primary Care Provider", leaf "CE.3" "L",
         emptyE "CE.4", emptyE "CE.5", emptyE "CE.6"],
       node "PRD.2" [
         node "XPN.1" [leaf "FN.1" ((doctor.name.splitOn ",").headD "")],
         leaf "XPN.2" (if doctor.name.contains ',' then (doctor.name.splitOn ",").getD 1 ""
           else "John"),
         emptyE "XPN.3", emptyE "XPN.4", emptyE "XPN.5", emptyE "XPN.6", emptyE "XPN.7"]]],
   create_pid_segment patient] ++
  (if msg_type_id = 5 then
    [node "NTE" [leaf "NTE.1" "1",
      leaf "NTE.3" (generate_ai_enhanced_discharge_summary patient
        ("Assessment for " ++ (specialty.replace "_" " ").toLower) "")]]
   else if ([3, 14, 16, 18, 19, 20, 22, 24, 26, 28, 30] : List Int).contains msg_type_id then
    [node "NTE" [leaf "NTE.1" "1",
      leaf "NTE.3" (generate_ai_enhanced_clinical_notes "REFERRAL" patient
        ("Referral to " ++ pyTitle (specialty.replace "_" " ")))]]
   else [])

/-- Draws of `create_rri_i12_segments`. -/
structure RriDraws where
  msa2 : Nat := 0

/-- `create_rri_i12_segments` (source lines 766-779). -/
def create_rri_i12_segments (patient : Patient) (_hospital : Hospital) (timestamp : String)
    (d : RriDraws) : List Elem :=
  [node "MSA" [
     leaf "MSA.1" "AA",
     leaf "MSA.2" ("REF" ++ timestamp ++ toString (randInt 100 999 d.msa2))],
   create_pid_segment patient]

/-- Draws of `create_ack_segments`. -/
structure AckDraws where
  seq : Nat := 0

/-- `create_ack_segments` (source lines 781-794). -/
def create_ack_segments (timestamp : String) (d : AckDraws) : List Elem :=
  [node "MSA" [
     leaf "MSA.1" "AA",
     leaf "MSA.2" ("ACK" ++ timestamp ++ toString (randInt 1000 9999 d.seq)),
     leaf "MSA.3" "Message processed successfully"]]

/-- Draws of `create_siu_s12_segments`. -/
structure SiuDraws where
  apt : Nat := 0

/-- `create_siu_s12_segments` (source lines 796-819). -/
def create_siu_s12_segments (patient : Patient) (_hospital : Hospital) (_timestamp : String)
    (d : SiuDraws) : List Elem :=
  [node "SCH" [
     node "SCH.1" [leaf "EI.1" ("APT" ++ toString (randInt 100000 999999 d.apt))],
     leaf "SCH.7" "New",
     node "SCH.11" [leaf "TQ.1" "30", leaf "TQ.2" "min"]],
   create_pid_segment patient]

/-! ## Message header -/

/-- `generate_healthlink_message_control_id` (source lines 1134-1139):
`strftime("%Y%m%d%H%M")` followed by a random 4-digit sequence
(`random_int(1000, 9999)`; a 4-digit number prints as its 4 digits). -/
def generate_healthlink_message_control_id (_msg_type_id : Int) (now : DateTime)
    (seq : Nat) : String :=
  format12 now ++ String.mk (pad4L (randInt 1000 9999 seq))

/-- `create_msh_segment_healthlink_compliant` plus
`add_healthlink_msh_fields` (source lines 1141-1190): the populated MSH
segment.  The `doctor` argument is passed by the caller but unused by the
source function.  The catalog entry is read again here, exactly as the
source indexes `HEALTHLINK_MESSAGES[msg_type_id]` (the caller guarantees
the id is in the catalog). -/
def add_healthlink_msh_fields (msg_type_id : Int) (hospital : Hospital) (_doctor : Doctor)
    (timestamp message_control_id : String) : Elem :=
  let info := (lookupMsg msg_type_id).getD ⟨"", "", ""⟩
  node "MSH" [
    leaf "MSH.1" "|",
    leaf "MSH.2" "^~\\&",
    leaf "MSH.3" ("HL7SYNTGEN" ++ info.msh3_suffix),
    leaf "MSH.4" hospital.hipe,
    leaf "MSH.5" "HEALTHLINK",
    leaf "MSH.6" "HSE",
    leaf "MSH.7" timestamp,
    leaf "MSH.9" info.type,
    leaf "MSH.10" message_control_id,
    leaf "MSH.11" "P",
    leaf "MSH.12" "2.5"]

/-! ## Message assembler (`create_hl7_message_xml`) -/

/-- All draws consumed by one `create_hl7_message_xml` call (one
sub-record per collaborator invocation; only the branch matching the
message type is consumed). -/
structure MessageDraws where
  patient : PatientDraws := {}
  doctor : DoctorDraws := {}
  hospital : Nat := 0
  ctrlSeq : Nat := 0
  oru : OruDraws := {}
  adt : AdtDraws := {}
  ref : RefDraws := {}
  rri : RriDraws := {}
  ack : AckDraws := {}
  siu : SiuDraws := {}

/-- Python `str.startswith`, computed on the character lists. -/
def strStartsWith (s pre : String) : Bool := pre.data.isPrefixOf s.data

/-- The type-dispatch of `create_hl7_message_xml` (source lines 425-453):
the segments appended after the MSH, selected by the hl7 type string. -/
def messageBody (t : String) (msg_type_id : Int) (patient : Patient) (hospital : Hospital)
    (timestamp : String) (d : MessageDraws) : List Elem :=
  if t = "ORU_R01" then create_oru_r01_segments patient hospital timestamp msg_type_id d.oru
  else if strStartsWith t "ADT" then create_adt_segments patient hospital timestamp t d.adt
  else if t = "REF_I12" then create_ref_i12_segments patient hospital timestamp msg_type_id d.ref
  else if t = "RRI_I12" then create_rri_i12_segments patient hospital timestamp d.rri
  else if t = "ACK" then create_ack_segments timestamp d.ack
  else if t = "SIU_S12" then create_siu_s12_segments patient hospital timestamp d.siu
  else [create_pid_segment patient]

/-- `create_hl7_message_xml` (source lines 401-455): fails fast on an
unknown id, otherwise synthesizes the entities, builds the MSH and
dispatches on the hl7 type. -/
def create_hl7_message_xml (msg_type_id : Int) (now : DateTime) (d : MessageDraws) :
    Except String Elem :=
  match lookupMsg msg_type_id with
  | none => .error ("Unknown message type ID: " ++ toString msg_type_id)
  | some msg_info =>
    let patient := generate_patient_data now.date d.patient
    let doctor := generate_doctor_data d.doctor
    let hospital := randElem IRISH_HOSPITALS ⟨"", "", ""⟩ d.hospital
    let timestamp := format14 now
    let message_control_id := generate_healthlink_message_control_id msg_type_id now d.ctrlSeq
    let msh := add_healthlink_msh_fields msg_type_id hospital doctor timestamp message_control_id
    .ok (Elem.mk msg_info.type none
      (msh :: messageBody msg_info.type msg_type_id patient hospital timestamp d))

/-! ## Serializer/framer (`format_as_healthlink_compliant_xml`) -/

/-- The structured result of `format_as_healthlink_compliant_xml` with
`include_framing=True` (source lines 1203-1219), over the UTF-8 bytes of
the serialized XML text. -/
structure FramedResult where
  xml_message : List Nat
  tcp_framed_message : List Nat
  total_length : Nat
  xml_length : Nat
  frame_overhead : Nat

/-- The framing step of `format_as_healthlink_compliant_xml`:
`b'\x0B' + clean_xml.encode('utf-8') + b'\x1C\x0D'`, together with the
reported `framing_info` lengths. -/
def frameHealthlinkMessage (xmlBytes : List Nat) : FramedResult :=
  let framed := 0x0B :: (xmlBytes ++ [0x1C, 0x0D])
  { xml_message := xmlBytes
    tcp_framed_message := framed
    total_length := framed.length
    xml_length := xmlBytes.length
    frame_overhead := 3 }

/-! ## Helper lemmas -/

/-- A `randElem` draw from a non-empty list is a member of the list. -/
theorem randElem_mem {α : Type} (l : List α) (dflt : α) (n : Nat) (h : l ≠ []) :
    randElem l dflt n ∈ l := by
  unfold randElem
  have hlen : 0 < l.length := List.length_pos.mpr h
  have hm : n % l.length < l.length := Nat.mod_lt _ hlen
  rw [List.getD_eq_getElem l dflt hm]
  exact List.getElem_mem hm

/-- Every zero-padded position prints a decimal digit. -/
theorem digitChar_isDigit (n : Nat) : (digitChar n).isDigit = true := by
  have h : n % 10 < 10 := Nat.mod_lt _ (by omega)
  have key : ∀ x : Fin 10, (Char.ofNat (48 + x.val)).isDigit = true := by decide
  simpa [digitChar] using key ⟨n % 10, h⟩

/-- Digit characters determine the digit. -/
theorem digitChar_inj_mod (a b : Nat) (h : digitChar a = digitChar b) : a % 10 = b % 10 := by
  have ha : a % 10 < 10 := Nat.mod_lt _ (by omega)
  have hb : b % 10 < 10 := Nat.mod_lt _ (by omega)
  have key : ∀ x y : Fin 10, Char.ofNat (48 + x.val) = Char.ofNat (48 + y.val) → x = y := by decide
  have := key ⟨a % 10, ha⟩ ⟨b % 10, hb⟩ (by simpa [digitChar] using h)
  simpa using congrArg Fin.val this

/-- The id lookup fails for every id outside 1..31. -/
theorem lookupMsg_none (id : Int) (h : id < 1 ∨ 31 < id) : lookupMsg id = none := by
  have key : ∀ l : List (Int × MsgInfo), (∀ p ∈ l, 1 ≤ p.1 ∧ p.1 ≤ 31) →
      List.lookup id l = none := by
    intro l hl
    induction l with
    | nil => rfl
    | cons p t ih =>
      have hp := hl p (by simp)
      have hne : (id == p.1) = false := by
        rw [beq_eq_false_iff_ne]
        rcases h with h | h <;> omega
      simp only [List.lookup, hne]
      exact ih (fun q hq => hl q (by simp [hq]))
  exact key HEALTHLINK_MESSAGES (by decide)

/-- Shape of a successful build: the root carries the catalog hl7 type,
the MSH first, then the dispatched body. -/
theorem create_eq_of_lookup (id : Int) (info : MsgInfo) (h : lookupMsg id = some info)
    (now : DateTime) (d : MessageDraws) :
    create_hl7_message_xml id now d = .ok (Elem.mk info.type none
      (add_healthlink_msh_fields id (randElem IRISH_HOSPITALS ⟨"", "", ""⟩ d.hospital)
        (generate_doctor_data d.doctor) (format14 now)
        (generate_healthlink_message_control_id id now d.ctrlSeq) ::
       messageBody info.type id (generate_patient_data now.date d.patient)
        (randElem IRISH_HOSPITALS ⟨"", "", ""⟩ d.hospital) (format14 now) d)) := by
  unfold create_hl7_message_xml
  rw [h]

/-- The character content of a message control id, digit by digit. -/
theorem ctrlid_data (id : Int) (t : DateTime) (s : Nat) :
    (generate_healthlink_message_control_id id t s).data =
      [digitChar (t.year / 1000), digitChar (t.year / 100), digitChar (t.year / 10),
       digitChar t.year,
       digitChar (t.month / 10), digitChar t.month,
       digitChar (t.day / 10), digitChar t.day,
       digitChar (t.hour / 10), digitChar t.hour,
       digitChar (t.minute / 10), digitChar t.minute,
       digitChar (randInt 1000 9999 s / 1000), digitChar (randInt 1000 9999 s / 100),
       digitChar (randInt 1000 9999 s / 10), digitChar (randInt 1000 9999 s)] := rfl

/-! ## Claim C6 -/

/-- C6: framing prepends the byte 0x0B and appends 0x1C 0x0D around the
unchanged payload, so the framed message has length `len(x) + 3`, and the
reported `xml_length` and `frame_overhead` equal `len(x)` and 3. -/
theorem C6_framing_envelope (x : List Nat) :
    (frameHealthlinkMessage x).tcp_framed_message = [0x0B] ++ x ++ [0x1C, 0x0D] ∧
    (frameHealthlinkMessage x).tcp_framed_message.length = x.length + 3 ∧
    (frameHealthlinkMessage x).total_length = x.length + 3 ∧
    (frameHealthlinkMessage x).xml_length = x.length ∧
    (frameHealthlinkMessage x).frame_overhead = 3 := by
  refine ⟨rfl, ?_, ?_, rfl, rfl⟩ <;>
    simp [frameHealthlinkMessage, List.length_append]

/-! ## Claim C2 -/

/-- C2: for every id outside the catalog 1..31 the build fails with the
"unknown message type" error, independently of the clock and of every
value-source draw, and no tree is produced. -/
theorem C2_unknown_type_fails (id : Int) (h : id < 1 ∨ 31 < id) (now : DateTime)
    (d : MessageDraws) :
    create_hl7_message_xml id now d = .error ("Unknown message type ID: " ++ toString id) := by
  unfold create_hl7_message_xml
  rw [lookupMsg_none id h]

/-- Witness for C2 at the concrete id 0. -/
theorem C2_unknown_type_fails_witness :
    create_hl7_message_xml 0 ⟨2026, 10, 12, 9, 30, 0⟩ {} =
      .error ("Unknown message type ID: " ++ toString (0 : Int)) :=
  C2_unknown_type_fails 0 (Or.inl (by decide)) ⟨2026, 10, 12, 9, 30, 0⟩ {}

/-! ## Claim C7 (corrected: minute granularity, not seconds) -/

/-- C7 counterexample: two build instants in the same minute but in
different seconds, with equal sequence draws, produce the same message
control id, so the id is not formed from a seconds-granularity timestamp
and calls in different seconds do not necessarily differ. -/
theorem C7_counterexample :
    (⟨2025, 6, 1, 9, 30, 5⟩ : DateTime).second ≠ (⟨2025, 6, 1, 9, 30, 42⟩ : DateTime).second ∧
    generate_healthlink_message_control_id 13 ⟨2025, 6, 1, 9, 30, 5⟩ 0 =
      generate_healthlink_message_control_id 13 ⟨2025, 6, 1, 9, 30, 42⟩ 0 :=
  ⟨by decide, rfl⟩

/-- C7 amended: the message control id is the minute-granularity
`YYYYMMDDHHMM` timestamp concatenated with a random 4-digit sequence in
[1000, 9999], so two calls in different minutes necessarily produce
distinct ids (uniqueness within one minute is not guaranteed). -/
theorem C7_minute_granularity (id1 id2 : Int) (t1 t2 : DateTime) (s1 s2 : Nat)
    (h1y : t1.year < 10000) (h1mo : t1.month < 100) (h1d : t1.day < 100)
    (h1h : t1.hour < 100) (h1mi : t1.minute < 100)
    (h2y : t2.year < 10000) (h2mo : t2.month < 100) (h2d : t2.day < 100)
    (h2h : t2.hour < 100) (h2mi : t2.minute < 100)
    (hne : ¬(t1.year = t2.year ∧ t1.month = t2.month ∧ t1.day = t2.day ∧
      t1.hour = t2.hour ∧ t1.minute = t2.minute)) :
    (∃ q, 1000 ≤ q ∧ q ≤ 9999 ∧
      generate_healthlink_message_control_id id1 t1 s1 = format12 t1 ++ String.mk (pad4L q)) ∧
    generate_healthlink_message_control_id id1 t1 s1 ≠
      generate_healthlink_message_control_id id2 t2 s2 := by
  constructor
  · refine ⟨randInt 1000 9999 s1, ?_, ?_, rfl⟩ <;> unfold randInt <;> omega
  · intro heq
    have hd := congrArg String.data heq
    rw [ctrlid_data, ctrlid_data] at hd
    simp only [List.cons.injEq, and_true] at hd
    obtain ⟨e1, e2, e3, e4, e5, e6, e7, e8, e9, e10, e11, e12, -, -, -, -⟩ := hd
    apply hne
    have a1 := digitChar_inj_mod _ _ e1
    have a2 := digitChar_inj_mod _ _ e2
    have a3 := digitChar_inj_mod _ _ e3
    have a4 := digitChar_inj_mod _ _ e4
    have a5 := digitChar_inj_mod _ _ e5
    have a6 := digitChar_inj_mod _ _ e6
    have a7 := digitChar_inj_mod _ _ e7
    have a8 := digitChar_inj_mod _ _ e8
    have a9 := digitChar_inj_mod _ _ e9
    have a10 := digitChar_inj_mod _ _ e10
    have a11 := digitChar_inj_mod _ _ e11
    have a12 := digitChar_inj_mod _ _ e12
    refine ⟨by omega, by omega, by omega, by omega, by omega⟩

/-- Witness for the amended C7 at two concrete instants one minute apart. -/
theorem C7_minute_granularity_witness :
    (∃ q, 1000 ≤ q ∧ q ≤ 9999 ∧
      generate_healthlink_message_control_id 13 ⟨2025, 6, 1, 9, 30, 5⟩ 7 =
        format12 ⟨2025, 6, 1, 9, 30, 5⟩ ++ String.mk (pad4L q)) ∧
    generate_healthlink_message_control_id 13 ⟨2025, 6, 1, 9, 30, 5⟩ 7 ≠
      generate_healthlink_message_control_id 13 ⟨2025, 6, 1, 9, 31, 5⟩ 7 :=
  C7_minute_granularity 13 13 ⟨2025, 6, 1, 9, 30, 5⟩ ⟨2025, 6, 1, 9, 31, 5⟩ 7 7
    (by decide) (by decide) (by decide) (by decide) (by decide)
    (by decide) (by decide) (by decide) (by decide) (by decide)
    (by decide)

/-- The populated MSH segment, once the catalog entry is known. -/
theorem msh_fields_eq (id : Int) (info : MsgInfo) (h : lookupMsg id = some info)
    (hosp : Hospital) (doc : Doctor) (ts mc : String) :
    add_healthlink_msh_fields id hosp doc ts mc = node "MSH" [
      leaf "MSH.1" "|",
      leaf "MSH.2" "^~\\&",
      leaf "MSH.3" ("HL7SYNTGEN" ++ info.msh3_suffix),
      leaf "MSH.4" hosp.hipe,
      leaf "MSH.5" "HEALTHLINK",
      leaf "MSH.6" "HSE",
      leaf "MSH.7" ts,
      leaf "MSH.9" info.type,
      leaf "MSH.10" mc,
      leaf "MSH.11" "P",
      leaf "MSH.12" "2.5"] := by
  unfold add_healthlink_msh_fields
  rw [h]
  rfl

/-- A concrete build instant used by the concrete-input theorems. -/
def sampleNow : DateTime := ⟨2026, 10, 12, 9, 30, 0⟩

/-- A concrete draw record (all draws zero) used by the concrete-input
theorems. -/
def sampleDraws : MessageDraws := {}

/-! ## Claim C1 -/

/-- C1: for every typeId in 1..31 the build succeeds; the root tag equals
the catalog hl7 type for that id, the MSH.9 leaf carries the same hl7
type, and the body appended after the MSH is the dispatch of that same
hl7 type string, so the three never disagree. -/
theorem C1_build_type_consistency (id : Int) (h1 : 1 ≤ id) (h2 : id ≤ 31) (now : DateTime)
    (d : MessageDraws) :
    ∃ info root, lookupMsg id = some info ∧
      create_hl7_message_xml id now d = .ok root ∧
      root.tag = info.type ∧
      textAt root ["MSH", "MSH.9"] = some info.type ∧
      root.children.tail = messageBody info.type id (generate_patient_data now.date d.patient)
        (randElem IRISH_HOSPITALS ⟨"", "", ""⟩ d.hospital) (format14 now) d := by
  have hsome : (lookupMsg id).isSome := by interval_cases id <;> rfl
  obtain ⟨info, hinfo⟩ := Option.isSome_iff_exists.mp hsome
  refine ⟨info, _, hinfo, create_eq_of_lookup id info hinfo now d, rfl, ?_, rfl⟩
  rw [msh_fields_eq id info hinfo]
  rfl

/-- Witness for C1 at the concrete id 10. -/
theorem C1_build_type_consistency_witness :
    ∃ info root, lookupMsg 10 = some info ∧
      create_hl7_message_xml 10 sampleNow sampleDraws = .ok root ∧
      root.tag = info.type ∧
      textAt root ["MSH", "MSH.9"] = some info.type ∧
      root.children.tail = messageBody info.type 10
        (generate_patient_data sampleNow.date sampleDraws.patient)
        (randElem IRISH_HOSPITALS ⟨"", "", ""⟩ sampleDraws.hospital) (format14 sampleNow)
        sampleDraws :=
  C1_build_type_consistency 10 (by decide) (by decide) sampleNow sampleDraws

/-! ## Claim C3 -/

/-- C3: dispatch correctness.  For every catalog type resolving to
"ORU_R01" the built tree contains an `ORU_R01.PATIENT_RESULT` group; for
id 13 ("ACK") the tree is exactly the MSH plus the MSA acknowledgment
subtree, contains no PID group anywhere, its MSA.1 leaf is "AA" and its
MSA.2 leaf is a non-empty correlation identifier. -/
theorem C3_dispatch_correctness (id : Int) (info : MsgInfo) (hid : lookupMsg id = some info)
    (now : DateTime) (d : MessageDraws) :
    (info.type = "ORU_R01" →
      ∃ root, create_hl7_message_xml id now d = .ok root ∧
        containsTag root "ORU_R01.PATIENT_RESULT" = true) ∧
    (id = 13 →
      ∃ root, create_hl7_message_xml id now d = .ok root ∧
        root.children.map Elem.tag = ["MSH", "MSA"] ∧
        containsTag root "PID" = false ∧
        textAt root ["MSA", "MSA.1"] = some "AA" ∧
        ∃ s, textAt root ["MSA", "MSA.2"] = some s ∧ s ≠ "") := by
  constructor
  · intro ht
    refine ⟨_, create_eq_of_lookup id info hid now d, ?_⟩
    rw [ht]
    rfl
  · intro h13
    subst h13
    have hsome : some (⟨"ACK", "Acknowledgement", "13"⟩ : MsgInfo) = some info := hid
    injection hsome with hinfoeq
    subst hinfoeq
    refine ⟨_, create_eq_of_lookup 13 _ hid now d, rfl, rfl, rfl, ?_⟩
    refine ⟨"ACK" ++ format14 now ++ toString (randInt 1000 9999 d.ack.seq), rfl, ?_⟩
    intro h
    have hl := congrArg String.length h
    rw [String.length_append, String.length_append] at hl
    have h3 : "ACK".length = 3 := rfl
    have h0 : "".length = 0 := rfl
    omega

/-- Witness for C3 at the concrete id 13. -/
theorem C3_dispatch_correctness_witness :
    ((⟨"ACK", "Acknowledgement", "13"⟩ : MsgInfo).type = "ORU_R01" →
      ∃ root, create_hl7_message_xml 13 sampleNow sampleDraws = .ok root ∧
        containsTag root "ORU_R01.PATIENT_RESULT" = true) ∧
    ((13 : Int) = 13 →
      ∃ root, create_hl7_message_xml 13 sampleNow sampleDraws = .ok root ∧
        root.children.map Elem.tag = ["MSH", "MSA"] ∧
        containsTag root "PID" = false ∧
        textAt root ["MSA", "MSA.1"] = some "AA" ∧
        ∃ s, textAt root ["MSA", "MSA.2"] = some s ∧ s ≠ "") :=
  C3_dispatch_correctness 13 ⟨"ACK", "Acknowledgement", "13"⟩ rfl sampleNow sampleDraws

/-! ## Claim C5 (corrected: 11 MSH fields, message type is a flat leaf) -/

/-- The header shape asserted by the claim: a 12-field MSH whose
message-type field is split into a triad of sub-fields. -/
def mshTriadClaimShape (root : Elem) : Prop :=
  (descend root ["MSH"]).map (fun m => m.children.length) = some 12 ∧
  ∃ m9, descend root ["MSH", "MSH.9"] = some m9 ∧ m9.children.length = 3

/-- C5 counterexample: on a concrete build the MSH subtree has 11 fields,
not 12, and the MSH.9 message-type field is a childless leaf, not a
triad. -/
theorem C5_counterexample :
    ∃ root, create_hl7_message_xml 1 sampleNow sampleDraws = .ok root ∧
      ¬ mshTriadClaimShape root ∧
      (descend root ["MSH"]).map (fun m => m.children.length) = some 11 ∧
      (descend root ["MSH", "MSH.9"]).map Elem.children = some [] := by
  refine ⟨_, create_eq_of_lookup 1 ⟨"OML_O21", "Laboratory Order", "1"⟩ rfl sampleNow sampleDraws,
    ?_, rfl, rfl⟩
  intro hclaim
  have h11 : (some 11 : Option Nat) = some 12 := by
    have hc := hclaim.1
    rw [show (descend (Elem.mk (⟨"OML_O21", "Laboratory Order", "1"⟩ : MsgInfo).type none
      (add_healthlink_msh_fields 1 (randElem IRISH_HOSPITALS ⟨"", "", ""⟩ sampleDraws.hospital)
        (generate_doctor_data sampleDraws.doctor) (format14 sampleNow)
        (generate_healthlink_message_control_id 1 sampleNow sampleDraws.ctrlSeq) ::
       messageBody (⟨"OML_O21", "Laboratory Order", "1"⟩ : MsgInfo).type 1
        (generate_patient_data sampleNow.date sampleDraws.patient)
        (randElem IRISH_HOSPITALS ⟨"", "", ""⟩ sampleDraws.hospital) (format14 sampleNow)
        sampleDraws)) ["MSH"]).map (fun m => m.children.length) = some 11 from rfl] at hc
    exact hc
  simp at h11

/-- C5 amended: the header subtree has exactly the 11 fields MSH.1-MSH.7
and MSH.9-MSH.12 (numbered up to 12, with no MSH.8): field separator "|",
encoding characters `^~\&`, sending application `HL7SYNTGEN` plus the
catalog msh3 suffix, sending facility the selected hospital's HIPE code,
receiving application "HEALTHLINK", receiving facility "HSE", a 14-digit
all-digit message timestamp, the message type as a single flat leaf (not
a triad), the message control id, processing id "P" and version id
"2.5". -/
theorem C5_msh_header_fields (id : Int) (info : MsgInfo) (hid : lookupMsg id = some info)
    (now : DateTime) (d : MessageDraws) :
    ∃ root hosp, create_hl7_message_xml id now d = .ok root ∧
      hosp ∈ IRISH_HOSPITALS ∧
      root.children.head? = some (node "MSH" [
        leaf "MSH.1" "|",
        leaf "MSH.2" "^~\\&",
        leaf "MSH.3" ("HL7SYNTGEN" ++ info.msh3_suffix),
        leaf "MSH.4" hosp.hipe,
        leaf "MSH.5" "HEALTHLINK",
        leaf "MSH.6" "HSE",
        leaf "MSH.7" (format14 now),
        leaf "MSH.9" info.type,
        leaf "MSH.10" (generate_healthlink_message_control_id id now d.ctrlSeq),
        leaf "MSH.11" "P",
        leaf "MSH.12" "2.5"]) ∧
      (format14 now).length = 14 ∧ (∀ c ∈ (format14 now).data, c.isDigit = true) := by
  refine ⟨_, randElem IRISH_HOSPITALS ⟨"", "", ""⟩ d.hospital,
    create_eq_of_lookup id info hid now d, randElem_mem _ _ _ (by decide), ?_, rfl, ?_⟩
  · rw [msh_fields_eq id info hid]
    rfl
  · intro c hc
    rw [show (format14 now).data =
      [digitChar (now.year / 1000), digitChar (now.year / 100), digitChar (now.year / 10),
       digitChar now.year, digitChar (now.month / 10), digitChar now.month,
       digitChar (now.day / 10), digitChar now.day, digitChar (now.hour / 10),
       digitChar now.hour, digitChar (now.minute / 10), digitChar now.minute,
       digitChar (now.second / 10), digitChar now.second] from rfl] at hc
    simp only [List.mem_cons, List.not_mem_nil, or_false] at hc
    rcases hc with rfl | rfl | rfl | rfl | rfl | rfl | rfl | rfl | rfl | rfl | rfl | rfl |
      rfl | rfl <;> exact digitChar_isDigit _

/-- Witness for the amended C5 at the concrete id 2. -/
theorem C5_msh_header_fields_witness :
    ∃ root hosp, create_hl7_message_xml 2 sampleNow sampleDraws = .ok root ∧
      hosp ∈ IRISH_HOSPITALS ∧
      root.children.head? = some (node "MSH" [
        leaf "MSH.1" "|",
        leaf "MSH.2" "^~\\&",
        leaf "MSH.3" ("HL7SYNTGEN" ++ (⟨"ADT_A01", "Inpatient Admission", "2"⟩ : MsgInfo).msh3_suffix),
        leaf "MSH.4" hosp.hipe,
        leaf "MSH.5" "HEALTHLINK",
        leaf "MSH.6" "HSE",
        leaf "MSH.7" (format14 sampleNow),
        leaf "MSH.9" (⟨"ADT_A01", "Inpatient Admission", "2"⟩ : MsgInfo).type,
        leaf "MSH.10" (generate_healthlink_message_control_id 2 sampleNow sampleDraws.ctrlSeq),
        leaf "MSH.11" "P",
        leaf "MSH.12" "2.5"]) ∧
      (format14 sampleNow).length = 14 ∧ (∀ c ∈ (format14 sampleNow).data, c.isDigit = true) :=
  C5_msh_header_fields 2 ⟨"ADT_A01", "Inpatient Admission", "2"⟩ rfl sampleNow sampleDraws

/-! ## Claim C4 (with date lemmas) -/

/-- The non-leap month length never exceeds the true month length. -/
theorem monthLenNL_le_daysInMonth (y m : Nat) : monthLenNL m ≤ daysInMonth y m := by
  unfold daysInMonth
  by_cases h : m = 2
  · subst h
    have h28 : monthLenNL 2 = 28 := rfl
    rw [if_pos rfl, h28]
    split <;> omega
  · rw [if_neg h]

/-- Month lengths of the twelve months are positive. -/
theorem monthLenNL_pos12 : ∀ k : Fin 12, 0 < monthLenNL (1 + k.val) := by decide

/-- The synthesized date of birth is a valid calendar date. -/
theorem dateOfBirth_valid (today : Date) (n1 n2 n3 : Nat) :
    ValidDate (dateOfBirth today 18 90 n1 n2 n3) := by
  unfold dateOfBirth ValidDate
  dsimp only
  have hm : n2 % 12 < 12 := Nat.mod_lt _ (by omega)
  have hpos : 0 < monthLenNL (1 + n2 % 12) := monthLenNL_pos12 ⟨n2 % 12, hm⟩
  have hday : n3 % monthLenNL (1 + n2 % 12) < monthLenNL (1 + n2 % 12) := Nat.mod_lt _ hpos
  refine ⟨by omega, by omega, by omega, ?_⟩
  calc 1 + n3 % monthLenNL (1 + n2 % 12) ≤ monthLenNL (1 + n2 % 12) := by omega
    _ ≤ _ := monthLenNL_le_daysInMonth _ _

/-- The synthesized date of birth realizes exactly the drawn whole-year
age. -/
theorem dateOfBirth_age (today : Date) (hy : 100 ≤ today.year) (n1 n2 n3 : Nat) :
    ageInYears today (dateOfBirth today 18 90 n1 n2 n3) = 18 + n1 % 73 := by
  unfold dateOfBirth ageInYears
  dsimp only
  have ha : n1 % (90 + 1 - 18) < 73 := Nat.mod_lt _ (by omega)
  by_cases hc : birthdayReached today (1 + n2 % 12) (1 + n3 % monthLenNL (1 + n2 % 12))
  · rw [if_pos hc, if_pos hc]
    omega
  · rw [if_neg hc, if_neg hc]
    omega

/-- C4: every synthesized Patient has a gender code in {"M", "F"}; its
clinical condition name and code are both empty or both non-empty (they
come from the same Bernoulli roll); and its dob is an 8-digit all-digit
string rendering a valid calendar date whose whole-year age at the
current date lies in [18, 90]. -/
theorem C4_patient_invariants (today : Date) (hy : 100 ≤ today.year) (d : PatientDraws) :
    ((generate_patient_data today d).gender = "M" ∨
      (generate_patient_data today d).gender = "F") ∧
    (((generate_patient_data today d).clinical_condition = "" ∧
      (generate_patient_data today d).clinical_condition_code = "") ∨
     ((generate_patient_data today d).clinical_condition ≠ "" ∧
      (generate_patient_data today d).clinical_condition_code ≠ "")) ∧
    (generate_patient_data today d).dob.length = 8 ∧
    (∀ c ∈ (generate_patient_data today d).dob.data, c.isDigit = true) ∧
    ∃ b : Date, (generate_patient_data today d).dob = format8 b ∧ ValidDate b ∧
      18 ≤ ageInYears today b ∧ ageInYears today b ≤ 90 := by
  refine ⟨?_, ?_, rfl, ?_, ?_⟩
  · have hg : (generate_patient_data today d).gender = ["M", "F"].getD (d.gender % 2) "" := rfl
    rcases Nat.mod_two_eq_zero_or_one d.gender with h | h
    · left; rw [hg, h]; rfl
    · right; rw [hg, h]; rfl
  · have hmem : randElem IRISH_MEDICAL_CONDITIONS ⟨"", "", 0⟩ d.cond ∈ IRISH_MEDICAL_CONDITIONS :=
      randElem_mem _ _ _ (by decide)
    have hcc : ∀ x ∈ IRISH_MEDICAL_CONDITIONS, x.condition ≠ "" ∧ x.icd10 ≠ "" := by decide
    have h1 : (generate_patient_data today d).clinical_condition =
        (if randInt 0 100 d.condRoll <
            (randElem IRISH_MEDICAL_CONDITIONS ⟨"", "", 0⟩ d.cond).prevalence_pct
         then (randElem IRISH_MEDICAL_CONDITIONS ⟨"", "", 0⟩ d.cond).condition else "") := rfl
    have h2 : (generate_patient_data today d).clinical_condition_code =
        (if randInt 0 100 d.condRoll <
            (randElem IRISH_MEDICAL_CONDITIONS ⟨"", "", 0⟩ d.cond).prevalence_pct
         then (randElem IRISH_MEDICAL_CONDITIONS ⟨"", "", 0⟩ d.cond).icd10 else "") := rfl
    by_cases h : randInt 0 100 d.condRoll <
        (randElem IRISH_MEDICAL_CONDITIONS ⟨"", "", 0⟩ d.cond).prevalence_pct
    · right
      rw [h1, h2, if_pos h, if_pos h]
      exact hcc _ hmem
    · left
      rw [h1, h2, if_neg h, if_neg h]
      exact ⟨rfl, rfl⟩
  · intro c hc
    have hdob : (generate_patient_data today d).dob.data =
        (let b := dateOfBirth today 18 90 d.dobA d.dobM d.dobD
         [digitChar (b.year / 1000), digitChar (b.year / 100), digitChar (b.year / 10),
          digitChar b.year, digitChar (b.month / 10), digitChar b.month,
          digitChar (b.day / 10), digitChar b.day]) := rfl
    rw [hdob] at hc
    simp only [List.mem_cons, List.not_mem_nil, or_false] at hc
    rcases hc with rfl | rfl | rfl | rfl | rfl | rfl | rfl | rfl <;> exact digitChar_isDigit _
  · refine ⟨dateOfBirth today 18 90 d.dobA d.dobM d.dobD, rfl,
      dateOfBirth_valid today d.dobA d.dobM d.dobD, ?_, ?_⟩ <;>
      rw [dateOfBirth_age today hy d.dobA d.dobM d.dobD] <;> omega

/-- Witness for C4 at a concrete current date and all-zero draws. -/
theorem C4_patient_invariants_witness :
    ((generate_patient_data sampleNow.date {}).gender = "M" ∨
      (generate_patient_data sampleNow.date {}).gender = "F") ∧
    (((generate_patient_data sampleNow.date {}).clinical_condition = "" ∧
      (generate_patient_data sampleNow.date {}).clinical_condition_code = "") ∨
     ((generate_patient_data sampleNow.date {}).clinical_condition ≠ "" ∧
      (generate_patient_data sampleNow.date {}).clinical_condition_code ≠ "")) ∧
    (generate_patient_data sampleNow.date {}).dob.length = 8 ∧
    (∀ c ∈ (generate_patient_data sampleNow.date {}).dob.data, c.isDigit = true) ∧
    ∃ b : Date, (generate_patient_data sampleNow.date {}).dob = format8 b ∧ ValidDate b ∧
      18 ≤ ageInYears sampleNow.date b ∧ ageInYears sampleNow.date b ≤ 90 :=
  C4_patient_invariants sampleNow.date (by decide) {}

/-! ## Claim C9 -/

/-- The PID.13 sub-elements of a patient with non-empty phone and mobile:
exactly two, the landline tagged PH first and the mobile tagged CP
second. -/
theorem create_pid_filter (p : Patient) (hp : p.phone ≠ "") (hm : p.mobile ≠ "") :
    (create_pid_segment p).children.filter (fun c => c.tag == "PID.13") =
      [node "PID.13" [leaf "XTN.1" p.phone, leaf "XTN.2" "PRN", leaf "XTN.3" "PH"],
       node "PID.13" [leaf "XTN.1" p.mobile, leaf "XTN.2" "PRN", leaf "XTN.3" "CP"]] := by
  unfold create_pid_segment
  rw [if_pos hp, if_pos hm]
  rfl

/-- C9: the entity synthesizer always populates both phone fields with
non-empty pattern strings, so every PID subtree of a synthesized patient
has exactly two PID.13 sub-elements: the landline tagged "PH" and the
mobile tagged "CP". -/
theorem C9_pid13_two_phone_elements (today : Date) (d : PatientDraws) :
    (generate_patient_data today d).phone ≠ "" ∧
    (generate_patient_data today d).mobile ≠ "" ∧
    (create_pid_segment (generate_patient_data today d)).children.filter
        (fun c => c.tag == "PID.13") =
      [node "PID.13" [leaf "XTN.1" (generate_patient_data today d).phone,
        leaf "XTN.2" "PRN", leaf "XTN.3" "PH"],
       node "PID.13" [leaf "XTN.1" (generate_patient_data today d).mobile,
        leaf "XTN.2" "PRN", leaf "XTN.3" "CP"]] := by
  have hp : (generate_patient_data today d).phone ≠ "" := by
    intro h
    have hl := congrArg String.length h
    have hpe : (generate_patient_data today d).phone =
        "0" ++ toString (randInt 21 99 d.phone1) ++ " " ++
        toString (randInt 400 999 d.phone2) ++ toString (randInt 1000 9999 d.phone3) := rfl
    rw [hpe, String.length_append, String.length_append, String.length_append,
      String.length_append] at hl
    have h1 : "0".length = 1 := rfl
    have h0 : "".length = 0 := rfl
    omega
  have hm : (generate_patient_data today d).mobile ≠ "" := by
    intro h
    have hl := congrArg String.length h
    have hme : (generate_patient_data today d).mobile =
        "087 " ++ toString (randInt 100 999 d.mob1) ++ toString (randInt 1000 9999 d.mob2) := rfl
    rw [hme, String.length_append, String.length_append] at hl
    have h4 : "087 ".length = 4 := rfl
    have h0 : "".length = 0 := rfl
    omega
  exact ⟨hp, hm, create_pid_filter _ hp hm⟩

/-! ## Claim C10 -/

/-- C10: the Patient age field comes from its own uniform draw in
[18, 90]; it does not depend on the date-of-birth draws, and for some
outputs it differs from the number of whole years between the dob and the
current date. -/
theorem C10_age_independent_of_dob (today : Date) (d : PatientDraws) :
    (generate_patient_data today d).age = 18 + d.ageDraw % 73 ∧
    18 ≤ (generate_patient_data today d).age ∧ (generate_patient_data today d).age ≤ 90 ∧
    (∀ a b c : Nat,
      (generate_patient_data today { d with dobA := a, dobM := b, dobD := c }).age =
        (generate_patient_data today d).age) ∧
    ∃ t0 : Date, ∃ d0 : PatientDraws, ∃ b0 : Date,
      (generate_patient_data t0 d0).dob = format8 b0 ∧ ValidDate b0 ∧
      (generate_patient_data t0 d0).age ≠ ageInYears t0 b0 := by
  have hage : (generate_patient_data today d).age = 18 + d.ageDraw % 73 := rfl
  have hm : d.ageDraw % 73 < 73 := Nat.mod_lt _ (by omega)
  refine ⟨rfl, by omega, by omega, fun a b c => rfl, ?_⟩
  refine ⟨⟨2026, 10, 12⟩, { ageDraw := 72 }, dateOfBirth ⟨2026, 10, 12⟩ 18 90 0 0 0, rfl,
    dateOfBirth_valid _ 0 0 0, ?_⟩
  rw [dateOfBirth_age ⟨2026, 10, 12⟩ (by decide) 0 0 0]
  decide

/-! ## Claim C8 (corrected: no space between the number and the unit) -/

/-- Split a character list at the first occurrence of `sep`, returning the
part before and the part after the separator. -/
def findSplit (sep : List Char) : List Char → Option (List Char × List Char)
  | [] => none
  | c :: rest =>
    if sep.isPrefixOf (c :: rest) then some ([], (c :: rest).drop sep.length)
    else
      match findSplit sep rest with
      | some (pre, post) => some (c :: pre, post)
      | none => none

/-- The result-value pattern `<number><sep><context>)`: the string splits
at `sep` into a non-empty numeric part (digits and a dot) and a
parenthesized non-empty context ending in `)`. -/
def matchesResultPattern (sep : List Char) (s : String) : Bool :=
  match findSplit sep s.data with
  | some (num, rest) =>
    !num.isEmpty && num.all (fun c => c.isDigit || c == '.') &&
    (match rest.getLast? with
     | some ch => ch == ')'
     | none => false) && decide (2 ≤ rest.length)
  | none => false

/-- The glucose pattern exactly as the claim words it:
`<number> mmol/L (<context>)`, with a space between the number and the
unit. -/
def specGlucosePattern (s : String) : Bool := matchesResultPattern " mmol/L (".data s

/-- The glucose pattern the local generator actually produces:
`<number>mmol/L (<context>)`, no space between the number and the unit. -/
def localGlucosePattern (s : String) : Bool := matchesResultPattern "mmol/L (".data s

/-- Every local glucose result matches the (no-space) glucose pattern. -/
theorem glucose_matches_local (n : Nat) :
    localGlucosePattern (generate_glucose_results n) = true := by
  have h : n % 116 < 116 := Nat.mod_lt _ (by omega)
  have key : ∀ k : Fin 116, localGlucosePattern (glucoseString (35 + k.val)) = true := by decide
  have he : generate_glucose_results n = glucoseString (35 + n % 116) := rfl
  rw [he]
  exact key ⟨n % 116, h⟩

/-- Concrete draws selecting the GLUCOSE entry of `LAB_TESTS` (index 11). -/
def glucoseDraws : MessageDraws := { oru := { test := 11 } }

/-- C8 counterexample: on a concrete Laboratory Result build with the
narrative provider absent and GLUCOSE selected, the OBX.5 leaf is
"3.5mmol/L (Normal)", which does not match the claimed pattern
`<number> mmol/L (<context>)` (there is no space before the unit). -/
theorem C8_counterexample :
    ∃ root, create_hl7_message_xml 10 sampleNow glucoseDraws = .ok root ∧
      (randElem LAB_TESTS ⟨"", "", ""⟩ glucoseDraws.oru.test).code = "GLUCOSE" ∧
      textAt root ["ORU_R01.PATIENT_RESULT", "ORU_R01.ORDER_OBSERVATION",
        "ORU_R01.OBSERVATION", "OBX", "OBX.5"] = some "3.5mmol/L (Normal)" ∧
      specGlucosePattern "3.5mmol/L (Normal)" = false := by
  refine ⟨_, create_eq_of_lookup 10 ⟨"ORU_R01", "Laboratory Result", "10"⟩ rfl sampleNow
    glucoseDraws, by decide, ?_, by decide⟩
  rfl

/-- C8 amended: on every Laboratory Result build (typeId 10) with the
narrative provider absent, the build succeeds (no provider failure is
surfaced) and the OBX.5 leaf is exactly the local deterministic
generator's output for the selected lab test code; when that code is
GLUCOSE the leaf matches `<number>mmol/L (<context>)` (no space between
the number and the unit). -/
theorem C8_local_lab_result (now : DateTime) (d : MessageDraws) :
    ∃ root, create_hl7_message_xml 10 now d = .ok root ∧
      textAt root ["ORU_R01.PATIENT_RESULT", "ORU_R01.ORDER_OBSERVATION",
        "ORU_R01.OBSERVATION", "OBX", "OBX.5"] =
        some (generate_lab_result (randElem LAB_TESTS ⟨"", "", ""⟩ d.oru.test).code d.oru.lab) ∧
      ((randElem LAB_TESTS ⟨"", "", ""⟩ d.oru.test).code = "GLUCOSE" →
        localGlucosePattern (generate_lab_result
          (randElem LAB_TESTS ⟨"", "", ""⟩ d.oru.test).code d.oru.lab) = true) := by
  refine ⟨_, create_eq_of_lookup 10 ⟨"ORU_R01", "Laboratory Result", "10"⟩ rfl now d, rfl, ?_⟩
  intro hcode
  rw [hcode]
  have he : generate_lab_result "GLUCOSE" d.oru.lab = generate_glucose_results d.oru.lab.gluDraw :=
    rfl
  rw [he]
  exact glucose_matches_local _

/-- Witness for the amended C8 at concrete draws selecting GLUCOSE. -/
theorem C8_local_lab_result_witness :
    ∃ root, create_hl7_message_xml 10 sampleNow glucoseDraws = .ok root ∧
      textAt root ["ORU_R01.PATIENT_RESULT", "ORU_R01.ORDER_OBSERVATION",
        "ORU_R01.OBSERVATION", "OBX", "OBX.5"] =
        some (generate_lab_result (randElem LAB_TESTS ⟨"", "", ""⟩ glucoseDraws.oru.test).code
          glucoseDraws.oru.lab) ∧
      ((randElem LAB_TESTS ⟨"", "", ""⟩ glucoseDraws.oru.test).code = "GLUCOSE" →
        localGlucosePattern (generate_lab_result
          (randElem LAB_TESTS ⟨"", "", ""⟩ glucoseDraws.oru.test).code
          glucoseDraws.oru.lab) = true) :=
  C8_local_lab_result sampleNow glucoseDraws
